import Mathlib

/-!
Shallow embedding of `src/terminal_base.h` (class `Term::BaseTerminal`).

The header has two compile-time branches: a POSIX branch (termios,
`tcgetattr`/`tcsetattr`/`read`/`ioctl`) and a Windows branch (console modes,
`GetConsoleMode`/`SetConsoleMode`/`kbhit`/`ReadFile`/
`GetConsoleScreenBufferInfo`).  Both are embedded.  OS calls that can fail
nondeterministically are parametrised by explicit outcome oracles (a `Bool`
per fallible call, or an `Option` carrying the data the call would produce).
C++ exceptions (`std::runtime_error` with a message) are embedded as
`Except String`; the message strings are copied verbatim from the source.
Flag words (`tcflag_t`, `DWORD`) are embedded as `Nat` with bitwise
operations; both are 32-bit words in the source, so `x &= ~m` is
`x &&& (2^32 - 1 - m)` (the subtraction from the all-ones word is the
32-bit complement, exact because no borrow occurs) and `x |= m` is
`x ||| m`.
-/

set_option autoImplicit false

namespace CppTerminal

/-! POSIX termios flag constants, values as on Linux `<termios.h>`. -/

def BRKINT : Nat := 2

def ICRNL : Nat := 256

def INPCK : Nat := 16

def ISTRIP : Nat := 32

def IXON : Nat := 1024

def CS8 : Nat := 48

def ECHO : Nat := 8

def ICANON : Nat := 2

def IEXTEN : Nat := 32768

def ISIG : Nat := 1

/-- Complement of a 32-bit flag mask, as produced by the C operator `~` on
a 32-bit word: subtraction from the all-ones word, exact because a mask
below `2^32` subtracts without borrow. -/
def complement32 (m : Nat) : Nat := 4294967295 - m

/-- The C idiom `x & ~m` on a 32-bit flag word. -/
def clear32 (x m : Nat) : Nat := x &&& complement32 m

/-- Embedding of `struct termios`: the four flag words and the two `c_cc`
entries the source touches (`VMIN`, `VTIME`). -/
structure Termios where
  c_iflag : Nat
  c_oflag : Nat
  c_cflag : Nat
  c_lflag : Nat
  c_cc_VMIN : Nat
  c_cc_VTIME : Nat
deriving Repr, DecidableEq

/-- Session state of the POSIX branch: the single data member
`struct termios orig_termios` saved by the constructor. -/
structure PosixSession where
  orig_termios : Termios
deriving Repr, DecidableEq

/-- Outcome oracles for the two fallible OS calls of the POSIX constructor. -/
structure PosixEnv where
  tcgetattr_fails : Bool
  tcsetattr_fails : Bool
deriving Repr, DecidableEq

/-- Raw-mode derivation of the POSIX constructor (source lines 79-91):
`raw = orig_termios`, then
`raw.c_iflag &= ~(BRKINT | ICRNL | INPCK | ISTRIP | IXON)`,
`raw.c_cflag |= CS8`, `raw.c_lflag &= ~(ECHO | ICANON | IEXTEN)`,
`if (disable_ctrl_c) raw.c_lflag &= ~ISIG`,
`raw.c_cc[VMIN] = 0`, `raw.c_cc[VTIME] = 0`.
The `raw.c_oflag &= ~OPOST` line is commented out in the source, so
`c_oflag` is not touched. -/
def posixRaw (orig : Termios) (disable_ctrl_c : Bool) : Termios :=
  let raw1 := { orig with
    c_iflag := clear32 orig.c_iflag (BRKINT ||| ICRNL ||| INPCK ||| ISTRIP ||| IXON) }
  let raw2 := { raw1 with c_cflag := raw1.c_cflag ||| CS8 }
  let raw3 := { raw2 with c_lflag := clear32 raw2.c_lflag (ECHO ||| ICANON ||| IEXTEN) }
  let raw4 := if disable_ctrl_c then
    { raw3 with c_lflag := clear32 raw3.c_lflag ISIG } else raw3
  { raw4 with c_cc_VMIN := 0, c_cc_VTIME := 0 }

/-- POSIX branch of `BaseTerminal::BaseTerminal` (source lines 74-95).
Takes the current terminal configuration `term` as explicit state and
returns the constructor result together with the configuration after the
call.  `tcgetattr` failing throws before any mutation; `tcsetattr` failing
throws and (being a single call that reports failure) leaves the
configuration as it was. -/
def posixConstruct (env : PosixEnv) (disable_ctrl_c : Bool) (term : Termios) :
    Except String PosixSession × Termios :=
  if env.tcgetattr_fails then (Except.error "tcgetattr() failed", term)
  else
    let orig := term
    let raw := posixRaw orig disable_ctrl_c
    if env.tcsetattr_fails then (Except.error "tcsetattr() failed", term)
    else (Except.ok { orig_termios := orig }, raw)

/-- POSIX branch of `BaseTerminal::~BaseTerminal` (source lines 109-111):
`tcsetattr(STDIN_FILENO, TCSAFLUSH, &orig_termios)`, throwing on failure.
`tcsetattr_fails` is the outcome oracle of that single call. -/
def posixDestruct (tcsetattr_fails : Bool) (s : PosixSession) (term : Termios) :
    Except String Unit × Termios :=
  if tcsetattr_fails then (Except.error "tcsetattr() failed in destructor", term)
  else (Except.ok (), s.orig_termios)

/-- Outcome of the underlying `read(STDIN_FILENO, s, 1)` call:
`bytes1 b` is `nread == 1` delivering byte `b`, `bytes0` is `nread == 0`
(no data under `VMIN = 0`, or end of file), `failure e` is `nread == -1`
with `e` telling whether `errno == EAGAIN`. -/
inductive ReadOutcome where
  | bytes1 (b : Nat)
  | bytes0
  | failure (errno_is_eagain : Bool)
deriving Repr, DecidableEq

/-- POSIX branch of `BaseTerminal::read_raw` (source lines 135-139):
`if (nread == -1 && errno != EAGAIN) throw; return nread == 1;`
with the delivered byte in the out-parameter when `nread == 1`,
embedded as `Option Nat`. -/
def read_raw (o : ReadOutcome) : Except String (Option Nat) :=
  match o with
  | ReadOutcome.bytes1 b => Except.ok (some b)
  | ReadOutcome.bytes0 => Except.ok none
  | ReadOutcome.failure e =>
      if e then Except.ok none else Except.error "read() failed"

/-- The `read` call against an explicit input stream: `err = some e` forces
`nread = -1` with `errno == EAGAIN` iff `e` (consuming nothing); otherwise
an empty stream yields `nread = 0` and a nonempty stream delivers its head. -/
def osRead (err : Option Bool) (stream : List Nat) : ReadOutcome × List Nat :=
  match err with
  | some e => (ReadOutcome.failure e, stream)
  | none =>
    match stream with
    | [] => (ReadOutcome.bytes0, [])
    | b :: rest => (ReadOutcome.bytes1 b, rest)

/-- `read_raw` run against an input stream: the result of the call together
with the stream left behind. -/
def read_raw_on (err : Option Bool) (stream : List Nat) :
    Except String (Option Nat) × List Nat :=
  ((read_raw (osRead err stream).1), (osRead err stream).2)

/-- Embedding of `struct winsize` (the two fields the source reads). -/
structure Winsize where
  ws_row : Nat
  ws_col : Nat
deriving Repr, DecidableEq

/-- POSIX branch of `BaseTerminal::get_term_size` (source lines 151-157):
`if (ioctl(STDOUT_FILENO, TIOCGWINSZ, &ws) == -1 || ws.ws_col == 0) throw;
else { cols = ws.ws_col; rows = ws.ws_row; }`.  The `ioctl` outcome is
`none` for failure, `some ws` for success; the result pair is
`(rows, cols)`. -/
def get_term_size (ioctl_result : Option Winsize) : Except String (Nat × Nat) :=
  match ioctl_result with
  | none => Except.error "ioctl() failed"
  | some ws =>
    if ws.ws_col = 0 then Except.error "ioctl() failed"
    else Except.ok (ws.ws_row, ws.ws_col)

/-! Windows console-mode flag constants, values as in `<windows.h>`. -/

def ENABLE_PROCESSED_INPUT : Nat := 1

def ENABLE_LINE_INPUT : Nat := 2

def ENABLE_ECHO_INPUT : Nat := 4

def ENABLE_VIRTUAL_TERMINAL_INPUT : Nat := 512

def ENABLE_VIRTUAL_TERMINAL_PROCESSING : Nat := 4

def DISABLE_NEWLINE_AUTO_RETURN : Nat := 8

/-- Console-mode state of the Windows branch: the mode word of the output
handle `hout` and of the input handle `hin`. -/
structure WinConsole where
  out_mode : Nat
  in_mode : Nat
deriving Repr, DecidableEq

/-- Session state of the Windows branch: the saved `dwOriginalOutMode` and
`dwOriginalInMode` data members. -/
structure WinSession where
  dwOriginalOutMode : Nat
  dwOriginalInMode : Nat
deriving Repr, DecidableEq

/-- Outcome oracles for the six fallible OS calls of the Windows
constructor, in source order. -/
structure WinEnv where
  hout_invalid : Bool
  hin_invalid : Bool
  get_out_mode_fails : Bool
  get_in_mode_fails : Bool
  set_out_mode_fails : Bool
  set_in_mode_fails : Bool
deriving Repr, DecidableEq

/-- Windows branch of `BaseTerminal::BaseTerminal` (source lines 44-72).
Note that the `disable_ctrl_c` parameter is not consulted anywhere in this
branch of the source.  If `SetConsoleMode(hout, ...)` succeeded but
`SetConsoleMode(hin, ...)` fails, the source throws with the output mode
already changed and performs no rollback; the returned console state shows
exactly that. -/
def winConstruct (env : WinEnv) (disable_ctrl_c : Bool) (con : WinConsole) :
    Except String WinSession × WinConsole :=
  if env.hout_invalid then
    (Except.error "GetStdHandle(STD_OUTPUT_HANDLE) failed", con)
  else if env.hin_invalid then
    (Except.error "GetStdHandle(STD_INPUT_HANDLE) failed", con)
  else if env.get_out_mode_fails then (Except.error "GetConsoleMode() failed", con)
  else if env.get_in_mode_fails then (Except.error "GetConsoleMode() failed", con)
  else
    let dwOriginalOutMode := con.out_mode
    let dwOriginalInMode := con.in_mode
    let dwRequestedOutModes :=
      ENABLE_VIRTUAL_TERMINAL_PROCESSING ||| DISABLE_NEWLINE_AUTO_RETURN
    let dwRequestedInModes := ENABLE_VIRTUAL_TERMINAL_INPUT
    let dwOutMode := dwOriginalOutMode ||| dwRequestedOutModes
    if env.set_out_mode_fails then (Except.error "SetConsoleMode() failed", con)
    else
      let con1 : WinConsole := { con with out_mode := dwOutMode }
      let dwInMode :=
        clear32 (dwOriginalInMode ||| dwRequestedInModes)
          (ENABLE_LINE_INPUT ||| ENABLE_ECHO_INPUT)
      if env.set_in_mode_fails then (Except.error "SetConsoleMode() failed", con1)
      else
        (Except.ok { dwOriginalOutMode := dwOriginalOutMode,
                     dwOriginalInMode := dwOriginalInMode },
         { con1 with in_mode := dwInMode })

/-- Windows branch of `BaseTerminal::~BaseTerminal` (source lines 102-107):
restore `hout` to `dwOriginalOutMode`, then `hin` to `dwOriginalInMode`,
throwing on whichever `SetConsoleMode` call fails. -/
def winDestruct (set_out_fails set_in_fails : Bool) (s : WinSession)
    (con : WinConsole) : Except String Unit × WinConsole :=
  if set_out_fails then (Except.error "SetConsoleMode() failed in destructor", con)
  else
    let con1 : WinConsole := { con with out_mode := s.dwOriginalOutMode }
    if set_in_fails then (Except.error "SetConsoleMode() failed in destructor", con1)
    else (Except.ok (), { con1 with in_mode := s.dwOriginalInMode })

/-- Windows branch of `BaseTerminal::read_raw` (source lines 118-133):
if `kbhit()` then `ReadFile(hin, buf, 1, &nread, nullptr)` (throwing on
failure); `nread == 1` delivers the byte, otherwise the source throws the
inconsistency error; without `kbhit()` the call returns false.  The
`ReadFile` data outcome is read off the explicit input stream. -/
def winReadRaw (kbhit : Bool) (readfile_fails : Bool) (stream : List Nat) :
    Except String (Option Nat) × List Nat :=
  if kbhit then
    if readfile_fails then (Except.error "ReadFile() failed", stream)
    else
      match stream with
      | b :: rest => (Except.ok (some b), rest)
      | [] => (Except.error "kbhit() and ReadFile() inconsistent", [])
  else (Except.ok none, stream)

/-- Embedding of the `srWindow` field of `CONSOLE_SCREEN_BUFFER_INFO`. -/
structure SmallRect where
  left : Int
  top : Int
  right : Int
  bottom : Int
deriving Repr, DecidableEq

/-- Windows branch of `BaseTerminal::get_term_size` (source lines 146-149):
the return value of `GetConsoleScreenBufferInfo` is ignored and no error is
ever raised; the result pair is `(rows, cols)` with
`cols = Right - Left + 1` and `rows = Bottom - Top + 1`. -/
def winGetTermSize (srWindow : SmallRect) : Int × Int :=
  (srWindow.bottom - srWindow.top + 1, srWindow.right - srWindow.left + 1)

/-- One `const` member-function call performed during a POSIX session:
a `read_raw` call with its read-outcome oracle, or a `get_term_size` call
with its `ioctl` oracle. -/
inductive SessionOp where
  | tryReadByte (read_err : Option Bool)
  | querySize (ioctl_result : Option Winsize)
deriving Repr, DecidableEq

/-- State of a live POSIX session: the session object, the terminal
configuration, and the pending input stream. -/
structure ActiveState where
  session : PosixSession
  term : Termios
  stream : List Nat
deriving Repr, DecidableEq

/-- Effect of one session operation on the POSIX session state.  Both
member functions are `const` and issue no configuration-changing OS call:
only the input stream can shrink. -/
def stepOp (st : ActiveState) (op : SessionOp) : ActiveState :=
  match op with
  | SessionOp.tryReadByte e => { st with stream := (read_raw_on e st.stream).2 }
  | SessionOp.querySize _ => st

/-- Run a sequence of session operations from a POSIX session state. -/
def runOps (st : ActiveState) (ops : List SessionOp) : ActiveState :=
  ops.foldl stepOp st

/-- One `const` member-function call performed during a Windows session. -/
inductive WinSessionOp where
  | tryReadByte (kbhit : Bool) (readfile_fails : Bool)
  | querySize (srWindow : SmallRect)
deriving Repr, DecidableEq

/-- State of a live Windows session. -/
structure WinActiveState where
  session : WinSession
  con : WinConsole
  stream : List Nat
deriving Repr, DecidableEq

/-- Effect of one session operation on the Windows session state. -/
def winStepOp (st : WinActiveState) (op : WinSessionOp) : WinActiveState :=
  match op with
  | WinSessionOp.tryReadByte kb rf => { st with stream := (winReadRaw kb rf st.stream).2 }
  | WinSessionOp.querySize _ => st

/-- Run a sequence of session operations from a Windows session state. -/
def winRunOps (st : WinActiveState) (ops : List WinSessionOp) : WinActiveState :=
  ops.foldl winStepOp st

/-- Sample original terminal configuration used in concrete witnesses. -/
def termSample : Termios :=
  { c_iflag := 1322, c_oflag := 5, c_cflag := 191, c_lflag := 32779,
    c_cc_VMIN := 1, c_cc_VTIME := 0 }

/-- All-success outcome environment for the Windows constructor. -/
def winEnvAllOk : WinEnv :=
  { hout_invalid := false, hin_invalid := false, get_out_mode_fails := false,
    get_in_mode_fails := false, set_out_mode_fails := false,
    set_in_mode_fails := false }

/-! Helper lemmas. -/

/-- Conjoining a mask whose lowest bit is unset clears bit 0. -/
theorem land_one_land_evenmask (a c : Nat) (hc : Nat.testBit c 0 = false) :
    (a &&& c) &&& 1 = 0 := by
  apply Nat.eq_of_testBit_eq
  intro i
  rw [Nat.zero_testBit, Nat.testBit_land, Nat.testBit_land]
  cases i with
  | zero => simp [hc]
  | succ j => simp [Nat.testBit_succ]

/-- Conjoining a mask whose lowest bit is set does not change bit 0. -/
theorem land_one_land_oddmask (a c : Nat) (hc : Nat.testBit c 0 = true) :
    (a &&& c) &&& 1 = a &&& 1 := by
  apply Nat.eq_of_testBit_eq
  intro i
  rw [Nat.testBit_land, Nat.testBit_land, Nat.testBit_land]
  cases i with
  | zero => simp [hc]
  | succ j => simp [Nat.testBit_succ]

/-- Setting a mask whose lowest bit is unset does not change bit 0. -/
theorem land_one_lor_evenmask (a m : Nat) (hm : Nat.testBit m 0 = false) :
    (a ||| m) &&& 1 = a &&& 1 := by
  apply Nat.eq_of_testBit_eq
  intro i
  rw [Nat.testBit_land, Nat.testBit_land, Nat.testBit_lor]
  cases i with
  | zero => simp [hm]
  | succ j => simp [Nat.testBit_succ]

/-- The applied Windows input mode keeps bit 0 (`ENABLE_PROCESSED_INPUT`)
exactly as in the original mode. -/
theorem win_in_mode_bit0 (x : Nat) :
    clear32 (x ||| ENABLE_VIRTUAL_TERMINAL_INPUT)
        (ENABLE_LINE_INPUT ||| ENABLE_ECHO_INPUT) &&& ENABLE_PROCESSED_INPUT
      = x &&& ENABLE_PROCESSED_INPUT := by
  rw [show ENABLE_PROCESSED_INPUT = 1 from rfl, clear32, complement32,
    land_one_land_oddmask _ _ (by decide), land_one_lor_evenmask _ _ (by decide)]

/-- Neither `read_raw` nor `get_term_size` touches the terminal
configuration: one step leaves `term` unchanged. -/
theorem stepOp_term (st : ActiveState) (op : SessionOp) :
    (stepOp st op).term = st.term := by
  cases op <;> rfl

/-- One step leaves the session object unchanged. -/
theorem stepOp_session (st : ActiveState) (op : SessionOp) :
    (stepOp st op).session = st.session := by
  cases op <;> rfl

/-- Any sequence of session operations leaves `term` unchanged. -/
theorem runOps_term (ops : List SessionOp) (st : ActiveState) :
    (runOps st ops).term = st.term := by
  induction ops generalizing st with
  | nil => rfl
  | cons op rest ih =>
    have : runOps st (op :: rest) = runOps (stepOp st op) rest := rfl
    rw [this, ih, stepOp_term]

/-- One Windows step leaves the console modes unchanged. -/
theorem winStepOp_con (st : WinActiveState) (op : WinSessionOp) :
    (winStepOp st op).con = st.con := by
  cases op <;> rfl

/-- Any sequence of Windows session operations leaves the console modes
unchanged. -/
theorem winRunOps_con (ops : List WinSessionOp) (st : WinActiveState) :
    (winRunOps st ops).con = st.con := by
  induction ops generalizing st with
  | nil => rfl
  | cons op rest ih =>
    have : winRunOps st (op :: rest) = winRunOps (winStepOp st op) rest := rfl
    rw [this, ih, winStepOp_con]

/-- Inversion of a successful POSIX construction: the saved mode is the
pre-construction configuration and the applied mode is the derived raw
one. -/
theorem posixConstruct_ok_inv {env : PosixEnv} {d : Bool} {term : Termios}
    {s : PosixSession} {t1 : Termios}
    (h : posixConstruct env d term = (Except.ok s, t1)) :
    s.orig_termios = term ∧ t1 = posixRaw term d := by
  unfold posixConstruct at h
  split at h
  · simp at h
  · split at h
    · simp at h
    · injection h with h1 h2
      injection h1 with h1
      exact ⟨by rw [← h1], h2.symm⟩

/-- Inversion of a successful Windows construction: the saved modes are the
pre-construction console modes. -/
theorem winConstruct_ok_inv {env : WinEnv} {d : Bool} {con : WinConsole}
    {s : WinSession} {con1 : WinConsole}
    (h : winConstruct env d con = (Except.ok s, con1)) :
    s.dwOriginalOutMode = con.out_mode ∧ s.dwOriginalInMode = con.in_mode := by
  unfold winConstruct at h
  split at h
  · simp at h
  · split at h
    · simp at h
    · split at h
      · simp at h
      · split at h
        · simp at h
        · split at h
          · simp at h
          · split at h
            · simp at h
            · injection h with h1 h2
              injection h1 with h1
              constructor
              · rw [← h1]
              · rw [← h1]

/-- On success, the Windows destructor restores both saved modes. -/
theorem winDestruct_ok (s : WinSession) (con : WinConsole) :
    winDestruct false false s con =
      (Except.ok (), { out_mode := s.dwOriginalOutMode,
                       in_mode := s.dwOriginalInMode }) := rfl

/-! Claims. -/

/-- C1: round-trip restoration.  For every successfully constructed session
(on either platform branch) and every sequence of `read_raw` /
`get_term_size` calls performed while it is live, a successful release
leaves the terminal configuration exactly equal to the configuration that
was captured before construction mutated it. -/
theorem round_trip_restoration
    (env : PosixEnv) (d : Bool) (orig : Termios) (stream : List Nat)
    (ops : List SessionOp) (s : PosixSession) (applied : Termios)
    (h : posixConstruct env d orig = (Except.ok s, applied))
    (wenv : WinEnv) (wd : Bool) (wcon : WinConsole) (wstream : List Nat)
    (wops : List WinSessionOp) (ws : WinSession) (wapplied : WinConsole)
    (hw : winConstruct wenv wd wcon = (Except.ok ws, wapplied)) :
    (posixDestruct false s
        (runOps { session := s, term := applied, stream := stream } ops).term).2 = orig ∧
    (winDestruct false false ws
        (winRunOps { session := ws, con := wapplied, stream := wstream } wops).con).2 = wcon := by
  constructor
  · have hs := (posixConstruct_ok_inv h).1
    simp [posixDestruct, hs]
  · obtain ⟨h1, h2⟩ := winConstruct_ok_inv hw
    rw [winDestruct_ok, h1, h2]

/-- C1 witness: a concrete lifecycle on both branches. -/
theorem round_trip_restoration_witness :
    (posixDestruct false { orig_termios := termSample }
        (runOps { session := { orig_termios := termSample },
                  term := posixRaw termSample true, stream := [] } []).term).2 = termSample ∧
    (winDestruct false false { dwOriginalOutMode := 7, dwOriginalInMode := 3 }
        (winRunOps { session := { dwOriginalOutMode := 7, dwOriginalInMode := 3 },
                     con := { out_mode := 15, in_mode := 513 },
                     stream := [] } []).con).2 = { out_mode := 7, in_mode := 3 } :=
  round_trip_restoration { tcgetattr_fails := false, tcsetattr_fails := false } true
    termSample [] [] { orig_termios := termSample } (posixRaw termSample true) rfl
    winEnvAllOk true { out_mode := 7, in_mode := 3 } [] []
    { dwOriginalOutMode := 7, dwOriginalInMode := 3 }
    { out_mode := 15, in_mode := 513 } rfl

/-- C2 counterexample: on the Windows branch, with every call succeeding
except the final `SetConsoleMode(hin, ...)`, construction raises — but the
output mode has already been changed from `0` to `12`
(`ENABLE_VIRTUAL_TERMINAL_PROCESSING | DISABLE_NEWLINE_AUTO_RETURN`) and
no rollback is attempted before the error propagates, so the terminal
configuration is not left unmodified. -/
theorem construction_atomicity_cex :
    winConstruct { winEnvAllOk with set_in_mode_fails := true } true
        { out_mode := 0, in_mode := 0 } =
      (Except.error "SetConsoleMode() failed", { out_mode := 12, in_mode := 0 }) := rfl

/-- C2 amended: every construction failure raises and produces no session;
on the POSIX branch the configuration is always left unmodified, and on
the Windows branch it is left either unmodified or — exactly when the
input-mode apply step fails after the output-mode apply succeeded — with
only the output mode already switched, never rolled back. -/
theorem construction_atomicity_amended :
    (∀ env d term, (posixConstruct env d term).1.isOk = false →
      (posixConstruct env d term).2 = term) ∧
    (∀ env d con, (winConstruct env d con).1.isOk = false →
      (winConstruct env d con).2 = con ∨
      (winConstruct env d con).2 =
        { con with out_mode := con.out_mode |||
            (ENABLE_VIRTUAL_TERMINAL_PROCESSING ||| DISABLE_NEWLINE_AUTO_RETURN) }) ∧
    (∀ d con, winConstruct { winEnvAllOk with set_in_mode_fails := true } d con =
      (Except.error "SetConsoleMode() failed",
       { con with out_mode := con.out_mode |||
           (ENABLE_VIRTUAL_TERMINAL_PROCESSING ||| DISABLE_NEWLINE_AUTO_RETURN) })) := by
  refine ⟨?_, ?_, ?_⟩
  · intro env d term h
    rcases env with ⟨g, s⟩
    cases g <;> cases s <;> simp_all [posixConstruct, Except.isOk, Except.toBool]
  · intro env d con h
    rcases env with ⟨a, b, c, e, f, g⟩
    cases a <;> cases b <;> cases c <;> cases e <;> cases f <;> cases g <;>
      simp_all [winConstruct, Except.isOk, Except.toBool]
  · intro d con
    simp [winConstruct, winEnvAllOk]

/-- C2 amended witness: a failing `tcgetattr` on the POSIX branch leaves
the configuration untouched. -/
theorem construction_atomicity_amended_witness :
    (posixConstruct { tcgetattr_fails := true, tcsetattr_fails := false }
        true termSample).1.isOk = false ∧
    (posixConstruct { tcgetattr_fails := true, tcsetattr_fails := false }
        true termSample).2 = termSample :=
  ⟨rfl, construction_atomicity_amended.1
    { tcgetattr_fails := true, tcsetattr_fails := false } true termSample rfl⟩

/-- C3 counterexample: on the POSIX branch a reported window of zero rows
and 80 columns is returned as `(0, 80)` — a zero row count — instead of
failing; and on the Windows branch a degenerate window rectangle yields
`(5, 0)` with zero columns and no error at all, because the result of
`GetConsoleScreenBufferInfo` is never checked. -/
theorem size_query_cex :
    get_term_size (some { ws_row := 0, ws_col := 80 }) = Except.ok (0, 80) ∧
    winGetTermSize { left := 5, top := 3, right := 4, bottom := 7 } = (5, 0) :=
  ⟨rfl, rfl⟩

/-- C3 amended: on the POSIX branch `get_term_size` fails exactly when the
`ioctl` fails or the reported column count is zero, and otherwise returns
the reported `(rows, cols)` with `cols` positive — the row count is passed
through unchecked and may be zero; on the Windows branch the window
rectangle arithmetic is returned unconditionally, with no failure path and
no positivity guarantee. -/
theorem size_query_amended :
    (∀ ws : Winsize, ws.ws_col ≠ 0 →
      get_term_size (some ws) = Except.ok (ws.ws_row, ws.ws_col)) ∧
    (∀ ws : Winsize, ws.ws_col = 0 →
      get_term_size (some ws) = Except.error "ioctl() failed") ∧
    get_term_size none = Except.error "ioctl() failed" ∧
    (∀ r p, get_term_size r = Except.ok p → 0 < p.2) ∧
    (∀ sr : SmallRect, winGetTermSize sr =
      (sr.bottom - sr.top + 1, sr.right - sr.left + 1)) := by
  refine ⟨?_, ?_, rfl, ?_, fun _ => rfl⟩
  · intro ws h
    simp [get_term_size, h]
  · intro ws h
    simp [get_term_size, h]
  · intro r p h
    match r with
    | none => simp [get_term_size] at h
    | some ws =>
      rw [get_term_size] at h
      split at h
      · simp at h
      · rename_i hcol
        injection h with h
        rw [← h]
        exact Nat.pos_of_ne_zero hcol

/-- C3 amended witness: a 24 by 80 window is returned as is. -/
theorem size_query_amended_witness :
    (80 : Nat) ≠ 0 ∧
    get_term_size (some { ws_row := 24, ws_col := 80 }) = Except.ok (24, 80) :=
  ⟨by decide, size_query_amended.1 { ws_row := 24, ws_col := 80 } (by decide)⟩

/-- C4 counterexample: on the Windows branch, when `kbhit()` reports data
but `ReadFile` succeeds while delivering zero bytes, `read_raw` raises the
inconsistency error even though the underlying read reported no error —
refuting the claimed "raises if and only if the underlying read reports an
error other than no data available". -/
theorem try_read_raises_iff_cex :
    winReadRaw true false [] =
      (Except.error "kbhit() and ReadFile() inconsistent", ([] : List Nat)) := rfl

/-- C4 amended: on the POSIX branch `read_raw` raises exactly when the
underlying `read` reports an error with `errno` other than `EAGAIN`;
a waiting byte is returned exactly, at most one byte is consumed per call
on either branch, and no data yields the absent value.  On the Windows
branch it additionally raises when `kbhit()` reports data but `ReadFile`
delivers zero bytes. -/
theorem try_read_raises_iff_amended :
    (∀ o : ReadOutcome,
      (∃ e, read_raw o = Except.error e) ↔ o = ReadOutcome.failure false) ∧
    (∀ b, read_raw (ReadOutcome.bytes1 b) = Except.ok (some b)) ∧
    (∀ err stream, (read_raw_on err stream).2 = stream ∨
      ∃ b, stream = b :: (read_raw_on err stream).2 ∧
        (read_raw_on err stream).1 = Except.ok (some b)) ∧
    (∀ kb rf stream, (winReadRaw kb rf stream).2 = stream ∨
      ∃ b, stream = b :: (winReadRaw kb rf stream).2 ∧
        (winReadRaw kb rf stream).1 = Except.ok (some b)) := by
  refine ⟨?_, fun _ => rfl, ?_, ?_⟩
  · intro o
    match o with
    | ReadOutcome.bytes1 b => simp [read_raw]
    | ReadOutcome.bytes0 => simp [read_raw]
    | ReadOutcome.failure e => cases e <;> simp [read_raw]
  · intro err stream
    match err with
    | some e => left; rfl
    | none =>
      match stream with
      | [] => left; rfl
      | b :: rest => right; exact ⟨b, rfl, rfl⟩
  · intro kb rf stream
    match kb with
    | false => left; rfl
    | true =>
      match rf with
      | true => left; rfl
      | false =>
        match stream with
        | [] => left; rfl
        | b :: rest => right; exact ⟨b, rfl, rfl⟩

/-- C4 amended witness: the POSIX raise case at a concrete outcome. -/
theorem try_read_raises_iff_amended_witness :
    (∃ e, read_raw (ReadOutcome.failure false) = Except.error e) :=
  (try_read_raises_iff_amended.1 (ReadOutcome.failure false)).mpr rfl

/-- C5 counterexample: the destructor body keeps no already-restored flag,
so running it a second time re-applies the saved mode; concretely, when
the reapplication of the second run fails, the second run raises instead
of being an error-free no-op. -/
theorem idempotent_release_cex :
    (posixDestruct true { orig_termios := termSample }
        (posixDestruct false { orig_termios := termSample }
          (posixRaw termSample true)).2).1
      = Except.error "tcsetattr() failed in destructor" := rfl

/-- C5 amended: release runs exactly once per session via scoped
destruction; the destructor body has no idempotence guard, so a second run
of it re-applies `orig_termios` — on success the resulting configuration
equals that after a single release, but the run is not a no-op: it always
performs the restore call and raises when that call fails. -/
theorem idempotent_release_amended :
    (∀ (s : PosixSession) (term : Termios),
      (posixDestruct false s (posixDestruct false s term).2).2
        = (posixDestruct false s term).2) ∧
    (∀ (s : PosixSession) (term : Termios),
      (posixDestruct false s term).2 = s.orig_termios) ∧
    (∀ (s : PosixSession) (term : Termios),
      (posixDestruct true s term).1
        = Except.error "tcsetattr() failed in destructor") ∧
    (∀ (s : WinSession) (con : WinConsole),
      (winDestruct false false s (winDestruct false false s con).2).2
        = (winDestruct false false s con).2) :=
  ⟨fun _ _ => rfl, fun _ _ => rfl, fun _ _ => rfl, fun _ _ => rfl⟩

/-- C6 counterexample: the source tracks no Restored state and defines no
use-after-close error.  After a completed release of a concrete session,
a subsequent `read_raw` delivers a waiting byte normally and a subsequent
`get_term_size` returns the size normally; neither fails at all, let alone
with a `UseAfterCloseError`. -/
theorem use_after_close_cex :
    (posixDestruct false { orig_termios := termSample }
        (posixConstruct { tcgetattr_fails := false, tcsetattr_fails := false }
          true termSample).2).1 = Except.ok () ∧
    read_raw_on none [97] = (Except.ok (some 97), ([] : List Nat)) ∧
    get_term_size (some { ws_row := 24, ws_col := 80 }) = Except.ok (24, 80) :=
  ⟨rfl, rfl, rfl⟩

/-- C6 amended: the member functions consult no lifecycle state — their
outcomes depend only on the OS call results, identically before and after
release — and the only errors they can raise are the underlying read and
size-query failures; no use-after-close error exists anywhere in the
implementation. -/
theorem use_after_close_amended :
    (∀ err stream e, (read_raw_on err stream).1 = Except.error e →
      e = "read() failed") ∧
    (∀ r e, get_term_size r = Except.error e → e = "ioctl() failed") ∧
    (∀ kb rf stream e, (winReadRaw kb rf stream).1 = Except.error e →
      e = "ReadFile() failed" ∨ e = "kbhit() and ReadFile() inconsistent") := by
  refine ⟨?_, ?_, ?_⟩
  · intro err stream e h
    match err with
    | some b =>
      cases b
      · simp only [read_raw_on, osRead, read_raw, if_false] at h
        injection h with h
        exact h.symm
      · simp [read_raw_on, osRead, read_raw] at h
    | none =>
      match stream with
      | [] => simp [read_raw_on, osRead, read_raw] at h
      | x :: rest => simp [read_raw_on, osRead, read_raw] at h
  · intro r e h
    match r with
    | none =>
      simp only [get_term_size] at h
      injection h with h
      exact h.symm
    | some ws =>
      rw [get_term_size] at h
      split at h
      · injection h with h
        exact h.symm
      · simp at h
  · intro kb rf stream e h
    match kb with
    | false => simp [winReadRaw] at h
    | true =>
      match rf with
      | true =>
        left
        simp only [winReadRaw, if_true] at h
        injection h with h
        exact h.symm
      | false =>
        match stream with
        | [] =>
          right
          simp only [winReadRaw, if_true, if_false] at h
          injection h with h
          exact h.symm
        | x :: rest => simp [winReadRaw] at h

/-- C6 amended witness: a concrete failing read yields the read error. -/
theorem use_after_close_amended_witness :
    (read_raw_on (some false) []).1 = Except.error "read() failed" ∧
    "read() failed" = "read() failed" :=
  ⟨rfl, use_after_close_amended.1 (some false) [] "read() failed" rfl⟩

/-- C7 counterexample: the Windows branch never consults `disable_ctrl_c`;
with the default `disable_ctrl_c = true` (signal passthrough off) and an
original input mode whose `ENABLE_PROCESSED_INPUT` bit is set, the applied
configuration still has that bit set, so Ctrl-C keeps generating the
interrupt signal rather than arriving as an ordinary input byte. -/
theorem signal_passthrough_cex :
    (winConstruct winEnvAllOk true { out_mode := 0, in_mode := 1 }).2.in_mode &&&
      ENABLE_PROCESSED_INPUT = 1 := by decide

/-- C7 amended: on the POSIX branch, `disable_ctrl_c = true` (the default)
clears `ISIG` in the applied local flags, and `disable_ctrl_c = false`
leaves `ISIG` at its original value; on the Windows branch the flag has no
effect and the signal-generating `ENABLE_PROCESSED_INPUT` bit is always
left at its original value. -/
theorem signal_passthrough_amended :
    (∀ orig : Termios, (posixRaw orig true).c_lflag &&& ISIG = 0) ∧
    (∀ orig : Termios,
      (posixRaw orig false).c_lflag &&& ISIG = orig.c_lflag &&& ISIG) ∧
    (∀ env d con, (winConstruct env d con).2.in_mode &&& ENABLE_PROCESSED_INPUT
        = con.in_mode &&& ENABLE_PROCESSED_INPUT) := by
  refine ⟨?_, ?_, ?_⟩
  · intro orig
    show clear32 (clear32 orig.c_lflag (ECHO ||| ICANON ||| IEXTEN)) ISIG &&& ISIG = 0
    rw [show ISIG = 1 from rfl, clear32, complement32]
    exact land_one_land_evenmask _ _ (by decide)
  · intro orig
    show clear32 orig.c_lflag (ECHO ||| ICANON ||| IEXTEN) &&& ISIG
        = orig.c_lflag &&& ISIG
    rw [show ISIG = 1 from rfl, clear32, complement32]
    exact land_one_land_oddmask _ _ (by decide)
  · intro env d con
    rcases env with ⟨a, b, c, e, f, g⟩
    cases a <;> cases b <;> cases c <;> cases e <;> cases f <;> cases g <;>
      simp [winConstruct, win_in_mode_bit0]

/-- C8: a restoration failure is never silent.  On the POSIX branch a
failing `tcsetattr` in the destructor raises its error, and the destructor
reports success exactly when the restore call succeeded; on the Windows
branch the destructor reports success exactly when both `SetConsoleMode`
restore calls succeeded, raising the destructor error otherwise. -/
theorem restore_failure_surfaced :
    (∀ (s : PosixSession) (term : Termios), (posixDestruct true s term).1
        = Except.error "tcsetattr() failed in destructor") ∧
    (∀ f (s : PosixSession) (term : Termios),
      (posixDestruct f s term).1 = Except.ok () ↔ f = false) ∧
    (∀ o i (s : WinSession) (con : WinConsole),
      (winDestruct o i s con).1 = Except.ok () ↔ (o = false ∧ i = false)) := by
  refine ⟨fun _ _ => rfl, ?_, ?_⟩
  · intro f s term
    cases f <;> simp [posixDestruct]
  · intro o i s con
    cases o <;> cases i <;> simp [winDestruct]

/-- C9 counterexample: on the Windows branch, construction changes the
output-side configuration: starting from output mode `0`, the applied
output mode is `12` (`ENABLE_VIRTUAL_TERMINAL_PROCESSING`
and `DISABLE_NEWLINE_AUTO_RETURN` switched on), not the pre-construction
value. -/
theorem output_boundary_cex :
    (winConstruct winEnvAllOk true { out_mode := 0, in_mode := 0 }).2.out_mode
      ≠ (0 : Nat) := by decide

/-- C9 amended: on the POSIX branch the output flags (`c_oflag`) are left
at their pre-construction value by construction (the `OPOST` line is
commented out) and by every session operation, which never touches the
configuration at all; on the Windows branch construction switches the
output mode to the original with virtual-terminal processing enabled and
newline auto-return disabled, restoring the original only at release. -/
theorem output_boundary_amended :
    (∀ env d term, ((posixConstruct env d term).2).c_oflag = term.c_oflag) ∧
    (∀ (st : ActiveState) (ops : List SessionOp), (runOps st ops).term = st.term) ∧
    (∀ d con, (winConstruct winEnvAllOk d con).2.out_mode
        = con.out_mode |||
          (ENABLE_VIRTUAL_TERMINAL_PROCESSING ||| DISABLE_NEWLINE_AUTO_RETURN)) := by
  refine ⟨?_, fun st ops => runOps_term ops st, fun d con => rfl⟩
  intro env d term
  rcases env with ⟨g, s⟩
  cases g <;> cases s <;> cases d <;> simp [posixConstruct, posixRaw]

/-- C10: end of file is reported as absence.  A `read` returning zero bytes
(end of file on standard input, or simply no pending data under
`VMIN = 0`) makes `read_raw` return the absent value without error,
indistinguishable from the `EAGAIN` no-data case; against the stream
model, reading an exhausted stream yields the absent value and leaves the
stream empty. -/
theorem eof_reported_as_absence :
    read_raw ReadOutcome.bytes0 = Except.ok none ∧
    read_raw (ReadOutcome.failure true) = Except.ok none ∧
    read_raw ReadOutcome.bytes0 = read_raw (ReadOutcome.failure true) ∧
    read_raw_on none [] = (Except.ok none, ([] : List Nat)) :=
  ⟨rfl, rfl, rfl, rfl⟩

end CppTerminal
